import Mathlib

/-!
Shallow embedding of the USART peripheral driver (`src/usart/peripheral.rs`
and the module interfaces it exposes) of the lpc8xx-hal repository.

The embedding models:
* the typestate tags (`Disabled`, `Enabled<W, Mode>` with the mode tags
  `AsyncMode` and `SyncMode` imported in `peripheral.rs`),
* the register block touched by the enable/disable transitions (`BRG`,
  `OSR`, `CFG`, `CTL`) together with the clock-controller side effects,
* the event trace that each transition performs against the hardware
  (clock enable, clock-source select, and the individual register writes,
  a `modify` being one composite read-modify-write),
* the receiver, transmitter and interrupt-mask interfaces.  Their
  implementations (`rx.rs`, `tx.rs`, `flags.rs`, `settings.rs`) are not in
  the excerpt; those parts are modelled from the spec and marked as such.
-/

namespace Usart

/-- Word-width tags implementing the `Word` trait (`u8` for 7/8-bit data,
`u16` for 9-bit data). -/
inductive WordTag where
  | u8
  | u16
deriving DecidableEq, Repr

/-- Mode tags of the typestate.  `peripheral.rs` imports exactly
`AsyncMode` and `SyncMode` from `state` and uses `Enabled<W, AsyncMode>` or
`Enabled<W, SyncMode>` in the return types of the `enable_*` methods. -/
inductive ModeTag where
  | asyncMode
  | syncMode
deriving DecidableEq, Repr

/-- Configuration-state tag on the `USART<I, State>` handle: `Disabled` or
`Enabled<W, Mode>`. -/
inductive ConfigState where
  | disabled
  | enabled (w : WordTag) (m : ModeTag)
deriving DecidableEq, Repr

/-- State type of the handle returned by `enable_async`
(`USART<I, Enabled<W, AsyncMode>>`). -/
def enableAsyncState (w : WordTag) : ConfigState :=
  ConfigState.enabled w ModeTag.asyncMode

/-- State type of the handle returned by `enable_sync_as_master`
(`USART<I, Enabled<W, SyncMode>>`). -/
def enableSyncMasterState (w : WordTag) : ConfigState :=
  ConfigState.enabled w ModeTag.syncMode

/-- State type of the handle returned by `enable_sync_as_slave`
(`USART<I, Enabled<W, SyncMode>>`). -/
def enableSyncSlaveState (w : WordTag) : ConfigState :=
  ConfigState.enabled w ModeTag.syncMode

/-- Variants of the CTL.TXBRKEN field (`normal` is written by
`configure`). -/
inductive TxBrkEn where
  | normal
  | continous
deriving DecidableEq, Repr

/-- Variants of the CTL.ADDRDET field (`disabled` is written by
`configure`). -/
inductive AddrDet where
  | disabled
  | enabled
deriving DecidableEq, Repr

/-- Variants of the CTL.TXDIS field (`enabled` is written by
`configure`). -/
inductive TxDis where
  | enabled
  | disabled
deriving DecidableEq, Repr

/-- Variants of the CTL.CC field (`continous_clock` is written by
`configure`; the misspelling is the register description's). -/
inductive Cc where
  | clockOnCharacter
  | continousClock
deriving DecidableEq, Repr

/-- Variants of the CTL.AUTOBAUD field (`disabled` is written by
`configure`). -/
inductive Autobaud where
  | disabled
  | enabled
deriving DecidableEq, Repr

/-- The CTL register fields touched by `configure`. -/
structure CtlReg where
  txbrken : TxBrkEn
  addrdet : AddrDet
  txdis : TxDis
  cc : Cc
  autobaud : Autobaud
deriving DecidableEq, Repr

/-- The CFG register fields touched by the `enable_*` transitions:
mode-select bits (SYNCEN, SYNCMST), general configuration bits (ENABLE,
CTSEN, LOOP, AUTOADDR) and the line-format fields written from
`Settings` (DATALEN, PARITYSEL, STOPLEN, CLKPOL). -/
structure CfgReg where
  enable : Bool
  syncen : Bool
  syncmst : Bool
  ctsen : Bool
  loopback : Bool
  autoaddr : Bool
  datalen : Nat
  paritysel : Nat
  stoplen : Bool
  clkpol : Bool
deriving DecidableEq, Repr

/-- Modelled from the spec: `Settings<W>` (`settings.rs` is not in the
excerpt) is an immutable record of line-format options — parity, stop
bits, data bits via `Word`, clock polarity for sync modes. -/
structure Settings where
  datalen : Nat
  paritysel : Nat
  stoplen : Bool
  clkpol : Bool
deriving DecidableEq, Repr

/-- Modelled from the spec: `Settings::apply` produces the final
line-format register write, i.e. it sets exactly the format fields of CFG
and touches nothing else. -/
def Settings.apply (s : Settings) (c : CfgReg) : CfgReg :=
  { c with
    datalen := s.datalen
    paritysel := s.paritysel
    stoplen := s.stoplen
    clkpol := s.clkpol }

/-- The `Clock` value consumed by `enable_async` / `enable_sync_as_master`:
a divisor (`brgval`) and an oversample count (`osrval`). -/
structure ClockCfg where
  brgval : Nat
  osrval : Nat
deriving DecidableEq, Repr

/-- The hardware state the transitions act on: the USART register block
(BRG, OSR, CFG, CTL) plus the clock-controller state (`enable_clock` /
`disable_clock` and the clock-source selection done by `configure`). -/
structure UsartRegs where
  brg : Nat
  osr : Nat
  cfg : CfgReg
  ctl : CtlReg
  clockEnabled : Bool
  clockSourceSelected : Bool
deriving DecidableEq, Repr

/-- One hardware access performed during a transition.  A svd2rust
`write`/`modify` is a single volatile store of the whole register, so each
register write is one event carrying the full value stored. -/
inductive Event where
  | clockEnable
  | clockSelect
  | ctlWrite (c : CtlReg)
  | brgWrite (v : Nat)
  | osrWrite (v : Nat)
  | cfgWrite (c : CfgReg)
deriving DecidableEq, Repr

/-- The CTL value produced by the `ctl.modify` in `configure`:
`txbrken().normal()`, `addrdet().disabled()`, `txdis().enabled()`,
`cc().continous_clock()`, `autobaud().disabled()`. -/
def ctlConfigured (c : CtlReg) : CtlReg :=
  { c with
    txbrken := TxBrkEn.normal
    addrdet := AddrDet.disabled
    txdis := TxDis.enabled
    cc := Cc.continousClock
    autobaud := Autobaud.disabled }

/-- The `configure` helper: `syscon.enable_clock`, `C::select`, then the
CTL read-modify-write.  Returns the new hardware state and the trace of
accesses in program order. -/
def configure (r : UsartRegs) : UsartRegs × List Event :=
  let r1 := { r with clockEnabled := true, clockSourceSelected := true }
  let ctl2 := ctlConfigured r1.ctl
  ({ r1 with ctl := ctl2 },
   [Event.clockEnable, Event.clockSelect, Event.ctlWrite ctl2])

/-- The `apply_general_config` helper: `enable().enabled()`,
`ctsen().disabled()`, `loop_().normal()`, `autoaddr().enabled()`. -/
def applyGeneralConfig (c : CfgReg) : CfgReg :=
  { c with
    enable := true
    ctsen := false
    loopback := false
    autoaddr := true }

/-- The CFG value built inside the `cfg.modify` closure of `enable_async`:
`syncen().asynchronous_mode()`, then `apply_general_config`, then
`settings.apply`. -/
def cfgAsync (s : Settings) (c : CfgReg) : CfgReg :=
  Settings.apply s (applyGeneralConfig { c with syncen := false })

/-- The CFG value built inside the `cfg.modify` closure of
`enable_sync_as_master`: `syncen().synchronous_mode()`,
`syncmst().master()`, then `apply_general_config`, then
`settings.apply`. -/
def cfgSyncMaster (s : Settings) (c : CfgReg) : CfgReg :=
  Settings.apply s (applyGeneralConfig { c with syncen := true, syncmst := true })

/-- The CFG value built inside the `cfg.modify` closure of
`enable_sync_as_slave`: `syncen().synchronous_mode()`,
`syncmst().slave()`, then `apply_general_config`, then
`settings.apply`. -/
def cfgSyncSlave (s : Settings) (c : CfgReg) : CfgReg :=
  Settings.apply s (applyGeneralConfig { c with syncen := true, syncmst := false })

/-- The register-level effect of `USART::enable_async`: `configure`, a
`brg.write` and an `osr.write` from the clock config, then one composite
`cfg.modify`. -/
def enable_async (clock : ClockCfg) (s : Settings) (r : UsartRegs) :
    UsartRegs × List Event :=
  let (r1, es) := configure r
  let r2 := { r1 with brg := clock.brgval, osr := clock.osrval }
  let cfg2 := cfgAsync s r2.cfg
  ({ r2 with cfg := cfg2 },
   es ++ [Event.brgWrite clock.brgval, Event.osrWrite clock.osrval,
          Event.cfgWrite cfg2])

/-- The register-level effect of `USART::enable_sync_as_master`:
`configure`, a `brg.write` from the clock config (no OSR write), then one
composite `cfg.modify`. -/
def enable_sync_as_master (clock : ClockCfg) (s : Settings) (r : UsartRegs) :
    UsartRegs × List Event :=
  let (r1, es) := configure r
  let r2 := { r1 with brg := clock.brgval }
  let cfg2 := cfgSyncMaster s r2.cfg
  ({ r2 with cfg := cfg2 },
   es ++ [Event.brgWrite clock.brgval, Event.cfgWrite cfg2])

/-- The register-level effect of `USART::enable_sync_as_slave`:
`configure` (the clock argument is ignored: `_clock`), then one composite
`cfg.modify`; neither BRG nor OSR is written. -/
def enable_sync_as_slave (s : Settings) (r : UsartRegs) :
    UsartRegs × List Event :=
  let (r1, es) := configure r
  let cfg2 := cfgSyncSlave s r1.cfg
  ({ r1 with cfg := cfg2 }, es ++ [Event.cfgWrite cfg2])

/-- The register-level effect of `USART::disable`: only
`syscon.disable_clock`; no register of the block is written. -/
def disable (r : UsartRegs) : UsartRegs :=
  { r with clockEnabled := false }

/-- The three concrete enable operations, for quantifying over the mode of
an `enable_*` call. -/
inductive EnableOp where
  | asyncOp
  | syncMasterOp
  | syncSlaveOp
deriving DecidableEq, Repr

/-- Dispatch an `enable_*` call by mode. -/
def enableOp (m : EnableOp) (clock : ClockCfg) (s : Settings) (r : UsartRegs) :
    UsartRegs × List Event :=
  match m with
  | EnableOp.asyncOp => enable_async clock s r
  | EnableOp.syncMasterOp => enable_sync_as_master clock s r
  | EnableOp.syncSlaveOp => enable_sync_as_slave s r

/-- The typestate tag a given `enable_*` call puts on the returned
handle. -/
def enableOpState (m : EnableOp) (w : WordTag) : ConfigState :=
  match m with
  | EnableOp.asyncOp => enableAsyncState w
  | EnableOp.syncMasterOp => enableSyncMasterState w
  | EnableOp.syncSlaveOp => enableSyncSlaveState w

/-- The line format a caller of the API can observe on an enabled
peripheral, per mode: the mode-select bits, the `Settings` fields, and the
divisor/oversample values where the mode programs them (OSR only in
asynchronous mode, BRG not in slave mode). -/
structure Format where
  sync : Bool
  master : Option Bool
  datalen : Nat
  paritysel : Nat
  stoplen : Bool
  clkpol : Option Bool
  brg : Option Nat
  osr : Option Nat
deriving DecidableEq, Repr

/-- Read the observable line format of the given mode off the hardware
state. -/
def observable (m : EnableOp) (r : UsartRegs) : Format :=
  match m with
  | EnableOp.asyncOp =>
      { sync := r.cfg.syncen, master := none
        datalen := r.cfg.datalen, paritysel := r.cfg.paritysel
        stoplen := r.cfg.stoplen, clkpol := none
        brg := some r.brg, osr := some r.osr }
  | EnableOp.syncMasterOp =>
      { sync := r.cfg.syncen, master := some r.cfg.syncmst
        datalen := r.cfg.datalen, paritysel := r.cfg.paritysel
        stoplen := r.cfg.stoplen, clkpol := some r.cfg.clkpol
        brg := some r.brg, osr := none }
  | EnableOp.syncSlaveOp =>
      { sync := r.cfg.syncen, master := some r.cfg.syncmst
        datalen := r.cfg.datalen, paritysel := r.cfg.paritysel
        stoplen := r.cfg.stoplen, clkpol := some r.cfg.clkpol
        brg := none, osr := none }

/-- The line format an `enable_*` call promises: computed from the mode,
the clock config and the settings alone. -/
def expectedFormat (m : EnableOp) (clock : ClockCfg) (s : Settings) : Format :=
  match m with
  | EnableOp.asyncOp =>
      { sync := false, master := none
        datalen := s.datalen, paritysel := s.paritysel
        stoplen := s.stoplen, clkpol := none
        brg := some clock.brgval, osr := some clock.osrval }
  | EnableOp.syncMasterOp =>
      { sync := true, master := some true
        datalen := s.datalen, paritysel := s.paritysel
        stoplen := s.stoplen, clkpol := some s.clkpol
        brg := some clock.brgval, osr := none }
  | EnableOp.syncSlaveOp =>
      { sync := true, master := some false
        datalen := s.datalen, paritysel := s.paritysel
        stoplen := s.stoplen, clkpol := some s.clkpol
        brg := none, osr := none }

/-- Select the CFG-write events out of a trace, keeping the value each one
stored. -/
def cfgWrites : List Event → List CfgReg
  | [] => []
  | Event.cfgWrite c :: es => c :: cfgWrites es
  | _ :: es => cfgWrites es

/-- Select the CTL-write events out of a trace. -/
def ctlWrites : List Event → List CtlReg
  | [] => []
  | Event.ctlWrite c :: es => c :: ctlWrites es
  | _ :: es => ctlWrites es

/-- Result of a non-blocking operation (`nb::Result<T, E>`): success,
`WouldBlock`, or a decodable error of type `E`. -/
inductive NbResult (T E : Type) where
  | ok (t : T)
  | wouldBlock
  | err (e : E)
deriving DecidableEq, Repr

/-- The `Void` error type of the `Write` impl (`type Error = Void`): an
uninhabited type. -/
inductive VoidE where
deriving DecidableEq, Repr

/-- The receive error enumeration surfaced by `read` (`rx::Error`):
overrun, framing, parity, noise, break. -/
inductive RxError where
  | overrun
  | framing
  | parity
  | noise
  | breakDetected
deriving DecidableEq, Repr

/-- Status bits of the receiver visible to one poll of `read`, plus the
content of the data register. -/
structure RxState where
  rxrdy : Bool
  overrun : Bool
  framing : Bool
  parity : Bool
  noise : Bool
  breakDetected : Bool
  data : Nat
deriving DecidableEq, Repr

/-- Whether any hardware error condition is latched. -/
def RxState.errorPending (s : RxState) : Bool :=
  s.overrun || s.framing || s.parity || s.noise || s.breakDetected

/-- Modelled from the spec: `Rx::read` (`rx.rs` is not in the excerpt)
reads the status register first; a latched error condition
(overrun/framing/parity/noise/break) is decoded and returned as the
specific error kind with priority over a pending data word; otherwise a
ready word is returned, or `WouldBlock` if none is ready. -/
def rxRead (s : RxState) : NbResult Nat RxError :=
  if s.overrun then NbResult.err RxError.overrun
  else if s.framing then NbResult.err RxError.framing
  else if s.parity then NbResult.err RxError.parity
  else if s.noise then NbResult.err RxError.noise
  else if s.breakDetected then NbResult.err RxError.breakDetected
  else if s.rxrdy then NbResult.ok s.data
  else NbResult.wouldBlock

/-- The error kind `rxRead` decodes, in its priority order. -/
def decodeRxError (s : RxState) : RxError :=
  if s.overrun then RxError.overrun
  else if s.framing then RxError.framing
  else if s.parity then RxError.parity
  else if s.noise then RxError.noise
  else RxError.breakDetected

/-- Status bits of the transmitter visible to `write` and `flush`. -/
structure TxState where
  txrdy : Bool
  txidle : Bool
deriving DecidableEq, Repr

/-- Modelled from the spec: `Tx::write` (`tx.rs` is not in the excerpt)
accepts the word when the transmit holding register is ready, otherwise
signals `WouldBlock`; its error type is `Void` per the `Write` impl in
`peripheral.rs`. -/
def txWrite (s : TxState) (_word : Nat) : NbResult Unit VoidE :=
  if s.txrdy then NbResult.ok () else NbResult.wouldBlock

/-- Modelled from the spec: `Tx::flush` reports completion once all
submitted words have left the shift register, otherwise `WouldBlock`;
error type `Void`. -/
def txFlush (s : TxState) : NbResult Unit VoidE :=
  if s.txidle then NbResult.ok () else NbResult.wouldBlock

/-- The enumerated interrupt sources of the peripheral (the fields of the
`Interrupts` struct). -/
inductive IntSource where
  | rxrdy
  | txrdy
  | txidle
  | deltacts
  | txdisint
  | overrun
  | deltarxbrk
  | start
  | framerr
  | parityerr
  | rxnoise
  | aberr
deriving DecidableEq, Repr

/-- An interrupt mask (`Interrupts`): one flag per source. -/
def IntMask : Type := IntSource → Bool

/-- The interrupt-enable state of the peripheral: one enable bit per
source. -/
def IntEnable : Type := IntSource → Bool

/-- Modelled from the spec: `enable_interrupts` (`flags.rs` is not in the
excerpt) sets the enable bit of each source flagged `true` in the mask
and leaves sources flagged `false` untouched — a selective bitwise
update. -/
def enable_interrupts (mask : IntMask) (reg : IntEnable) : IntEnable :=
  fun src => reg src || mask src

/-- Modelled from the spec: `disable_interrupts` clears the enable bit of
each source flagged `true` in the mask and leaves sources flagged `false`
untouched. -/
def disable_interrupts (mask : IntMask) (reg : IntEnable) : IntEnable :=
  fun src => reg src && !(mask src)

/-- A mask flagging exactly one source. -/
def singleMask (a : IntSource) : IntMask :=
  fun src => decide (src = a)

/-- The full `USART<I, State>` handle: the owned hardware instance
(identified by a tag), the hardware state behind it, and the typestate
tag. -/
structure UsartHandle where
  inst : Nat
  regs : UsartRegs
  state : ConfigState
deriving DecidableEq, Repr

/-- Handle-level `enable_*`: runs the register-level transition and
returns a new handle built from `self.usart` — the same instance. -/
def enableOpHandle (m : EnableOp) (w : WordTag) (clock : ClockCfg)
    (s : Settings) (h : UsartHandle) : UsartHandle :=
  { inst := h.inst
    regs := (enableOp m clock s h.regs).1
    state := enableOpState m w }

/-- Handle-level `disable`: gates the clock off and returns a new handle
built from `self.usart` — the same instance. -/
def disableHandle (h : UsartHandle) : UsartHandle :=
  { inst := h.inst
    regs := disable h.regs
    state := ConfigState.disabled }

/-- The `free` escape hatch: returns the raw peripheral instance the
handle owned. -/
def free (h : UsartHandle) : Nat :=
  h.inst

/-- The SYNCEN mode-select bit each `enable_*` transition commits. -/
def syncenBit (m : EnableOp) : Bool :=
  match m with
  | EnableOp.asyncOp => false
  | EnableOp.syncMasterOp => true
  | EnableOp.syncSlaveOp => true

/-- The SYNCMST bit each `enable_*` transition commits; the asynchronous
transition does not write this bit, so it keeps its previous value. -/
def syncmstBit (m : EnableOp) (prev : Bool) : Bool :=
  match m with
  | EnableOp.asyncOp => prev
  | EnableOp.syncMasterOp => true
  | EnableOp.syncSlaveOp => false

/-- C1, counterexample: the claim asserts that for every word width the
master-enabled and slave-enabled states are different states; in the code
both `enable_sync_as_master` and `enable_sync_as_slave` return
`USART<I, Enabled<W, SyncMode>>`, so at `W = u8` the two states are equal,
refuting the claim. -/
theorem C1_counterexample :
    enableSyncMasterState WordTag.u8 = enableSyncSlaveState WordTag.u8 :=
  rfl

/-- C1, amended: the handles returned by `enable_sync_as_master` and
`enable_sync_as_slave` carry one and the same `SyncMode` tag for every
word width — the two enabled states are not distinguished at the type
level; the tag is distinct from `AsyncMode`, and the master/slave
distinction is committed to the CFG register's SYNCMST bit instead (set by
the master transition, cleared by the slave transition). -/
theorem C1_sync_states_share_tag (w : WordTag) (clock : ClockCfg)
    (s : Settings) (r r' : UsartRegs) :
    enableSyncMasterState w = enableSyncSlaveState w ∧
    enableSyncMasterState w ≠ enableAsyncState w ∧
    (enable_sync_as_master clock s r).1.cfg.syncmst = true ∧
    (enable_sync_as_slave s r').1.cfg.syncmst = false := by
  refine ⟨rfl, ?_, rfl, rfl⟩
  simp [enableSyncMasterState, enableAsyncState]

/-- C1, witness for the amended theorem at concrete inputs. -/
theorem C1_sync_states_share_tag_witness :
    enableSyncMasterState WordTag.u16 ≠ enableAsyncState WordTag.u16 :=
  (C1_sync_states_share_tag WordTag.u16 ⟨0, 0⟩ ⟨8, 0, false, false⟩
      ⟨0, 0, ⟨false, false, false, false, false, false, 0, 0, false, false⟩,
        ⟨TxBrkEn.normal, AddrDet.disabled, TxDis.enabled,
          Cc.continousClock, Autobaud.disabled⟩, false, false⟩
      ⟨0, 0, ⟨false, false, false, false, false, false, 0, 0, false, false⟩,
        ⟨TxBrkEn.normal, AddrDet.disabled, TxDis.enabled,
          Cc.continousClock, Autobaud.disabled⟩, false, false⟩).2.1

/-- C2: whenever a hardware error condition (overrun, framing, parity,
noise, break) is latched at a poll of `read`, the result is the specific
decoded error kind and never a valid data word — error takes priority
over a simultaneously pending ready word. -/
theorem C2_error_priority (s : RxState) (h : s.errorPending = true) :
    rxRead s = NbResult.err (decodeRxError s) ∧
    ∀ w, rxRead s ≠ NbResult.ok w := by
  unfold RxState.errorPending at h
  unfold rxRead decodeRxError
  cases hov : s.overrun <;> cases hfr : s.framing <;>
    cases hpa : s.parity <;> cases hno : s.noise <;>
    cases hbr : s.breakDetected <;> simp_all

/-- C2, witness: with both a ready word and a framing error pending, the
poll returns the framing error and not the data word. -/
theorem C2_error_priority_witness :
    rxRead ⟨true, false, true, false, false, false, 42⟩ ≠ NbResult.ok 42 :=
  (C2_error_priority ⟨true, false, true, false, false, false, 42⟩
      (by decide)).2 42

/-- C4: `enable_async` programs both the BRG divisor and the OSR
oversample register from the clock config; `enable_sync_as_master`
programs the divisor only and leaves OSR unchanged;
`enable_sync_as_slave` programs neither. -/
theorem C4_divisor_oversample_programming (clock : ClockCfg) (s : Settings)
    (r : UsartRegs) :
    ((enable_async clock s r).1.brg = clock.brgval ∧
      (enable_async clock s r).1.osr = clock.osrval) ∧
    ((enable_sync_as_master clock s r).1.brg = clock.brgval ∧
      (enable_sync_as_master clock s r).1.osr = r.osr) ∧
    ((enable_sync_as_slave s r).1.brg = r.brg ∧
      (enable_sync_as_slave s r).1.osr = r.osr) :=
  ⟨⟨rfl, rfl⟩, ⟨rfl, rfl⟩, ⟨rfl, rfl⟩⟩

/-- C6: the error type of the non-blocking write interface is the
uninhabited `Void`, so every poll of `write` or `flush` on an enabled
peripheral is either success or `WouldBlock` — never an error value. -/
theorem C6_write_flush_infallible (s : TxState) (word : Nat) :
    ((txWrite s word = NbResult.ok () ∨ txWrite s word = NbResult.wouldBlock) ∧
      (txFlush s = NbResult.ok () ∨ txFlush s = NbResult.wouldBlock)) ∧
    (VoidE → False) := by
  refine ⟨⟨?_, ?_⟩, fun v => nomatch v⟩
  · unfold txWrite
    cases s.txrdy <;> simp
  · unfold txFlush
    cases s.txidle <;> simp

/-- C10: every handle-consuming transition returns a handle holding
exactly the hardware instance the consumed handle held, and `free`
returns that same instance. -/
theorem C10_instance_preserved (m : EnableOp) (w : WordTag)
    (clock : ClockCfg) (s : Settings) (h : UsartHandle) :
    (enableOpHandle m w clock s h).inst = h.inst ∧
    (disableHandle h).inst = h.inst ∧
    free (enableOpHandle m w clock s h) = h.inst ∧
    free (disableHandle h) = h.inst ∧
    free h = h.inst :=
  ⟨rfl, rfl, rfl, rfl, rfl⟩

/-- C3: for every pair of modes and every pair of settings and clock
configurations, enable followed by disable followed by enable leaves the
observable line format (mode-select bits, word length, parity, stop bits,
clock polarity and divisor/oversample where the mode programs them)
exactly as the second call's settings and clock specify — no residual
state from the first enable is observable. -/
theorem C3_second_enable_wins (m1 m2 : EnableOp) (c1 c2 : ClockCfg)
    (s1 s2 : Settings) (r : UsartRegs) :
    observable m2 (enableOp m2 c2 s2 (disable (enableOp m1 c1 s1 r).1)).1 =
      expectedFormat m2 c2 s2 := by
  cases m1 <;> cases m2 <;> rfl

/-- C5: `enable_interrupts` sets the enable bit only of sources flagged
`true` and leaves sources flagged `false` unchanged; `disable_interrupts`
clears only sources flagged `true`; and enabling source `a` then
disabling a different source `b` leaves the enable bit of `a` set. -/
theorem C5_selective_interrupt_update (mask : IntMask) (reg : IntEnable)
    (src a b : IntSource) (reg0 : IntEnable) (hne : a ≠ b) :
    (mask src = false →
      enable_interrupts mask reg src = reg src ∧
      disable_interrupts mask reg src = reg src) ∧
    (mask src = true →
      enable_interrupts mask reg src = true ∧
      disable_interrupts mask reg src = false) ∧
    disable_interrupts (singleMask b)
      (enable_interrupts (singleMask a) reg0) a = true := by
  refine ⟨fun h => ?_, fun h => ?_, ?_⟩
  · simp [enable_interrupts, disable_interrupts, h]
  · simp [enable_interrupts, disable_interrupts, h]
  · simp [enable_interrupts, disable_interrupts, singleMask, hne]

/-- C5, witness: enabling RXRDY then disabling TXRDY leaves RXRDY
enabled, starting from an all-clear enable register. -/
theorem C5_selective_interrupt_update_witness :
    disable_interrupts (singleMask IntSource.txrdy)
      (enable_interrupts (singleMask IntSource.rxrdy) (fun _ => false))
      IntSource.rxrdy = true :=
  (C5_selective_interrupt_update (fun _ => false) (fun _ => false)
      IntSource.rxrdy IntSource.rxrdy IntSource.txrdy (fun _ => false)
      (by decide)).2.2

/-- C7: every `enable_*` transition performs exactly one write to the CFG
register, and that single composite write carries the mode-select bits,
the general configuration bits and all line-format fields from the
settings together — no intermediate partly-updated CFG value is ever
stored. -/
theorem C7_single_composite_cfg_write (m : EnableOp) (clock : ClockCfg)
    (s : Settings) (r : UsartRegs) :
    cfgWrites (enableOp m clock s r).2 = [(enableOp m clock s r).1.cfg] ∧
    (enableOp m clock s r).1.cfg =
      { enable := true
        syncen := syncenBit m
        syncmst := syncmstBit m r.cfg.syncmst
        ctsen := false
        loopback := false
        autoaddr := true
        datalen := s.datalen
        paritysel := s.paritysel
        stoplen := s.stoplen
        clkpol := s.clkpol } := by
  cases m <;> exact ⟨rfl, rfl⟩

/-- C8: after every `enable_*` transition, regardless of mode, settings
and clock, the CFG register has the peripheral-enable bit set, CTS
hardware flow control disabled, loopback disabled and automatic address
matching enabled. -/
theorem C8_general_config_committed (m : EnableOp) (clock : ClockCfg)
    (s : Settings) (r : UsartRegs) :
    (enableOp m clock s r).1.cfg.enable = true ∧
    (enableOp m clock s r).1.cfg.ctsen = false ∧
    (enableOp m clock s r).1.cfg.loopback = false ∧
    (enableOp m clock s r).1.cfg.autoaddr = true := by
  cases m <;> exact ⟨rfl, rfl, rfl, rfl⟩

/-- C9: every `enable_*` transition starts by enabling the peripheral
clock, selecting the clock source and writing the CTL register with break
transmission normal, address detection disabled, autobaud disabled,
continuous clock selected and the TXDIS field's `enabled` variant, and
this CTL write precedes the CFG write, which occurs among the later
events. -/
theorem C9_configure_runs_first (m : EnableOp) (clock : ClockCfg)
    (s : Settings) (r : UsartRegs) :
    ((enableOp m clock s r).2).take 3 =
      [Event.clockEnable, Event.clockSelect,
        Event.ctlWrite (ctlConfigured r.ctl)] ∧
    ctlConfigured r.ctl =
      ⟨TxBrkEn.normal, AddrDet.disabled, TxDis.enabled,
        Cc.continousClock, Autobaud.disabled⟩ ∧
    cfgWrites (((enableOp m clock s r).2).take 3) = [] ∧
    cfgWrites (((enableOp m clock s r).2).drop 3) =
      [(enableOp m clock s r).1.cfg] := by
  cases m <;> exact ⟨rfl, rfl, rfl, rfl⟩

end Usart
